import Mathlib

/-!
Shallow embedding of the taco-storage-sdk store/retrieve pipeline.

The development models, directly from the TypeScript source:
  - the error taxonomy and error objects (src/types/index.ts, TacoStorageError),
  - the storage metadata envelope and result records (src/types/index.ts),
  - the orchestrator TacoStorage (store, retrieve, delete, exists,
    getMetadata, list, getHealth) from src/core/storage.ts,
  - the SQLite adapter (src/adapters/sqlite.ts): an in-memory rendering of
    its two tables (items, item_data) and the SQL it issues,
  - the Kubo and Helia IPFS adapters (src/adapters/ipfs/kubo.ts, helia.ts):
    a content-addressed block map plus an initialized-client flag,
  - the Pinata adapter store path (src/adapters/pinata.ts).

External collaborators are black boxes, passed in as parameters:
  - the TACo encryption service (encrypt, decrypt, messageKit.toBytes,
    ThresholdMessageKit.fromBytes) as an EncService record,
  - JSON serialization of the IPFS data package and the content hash
    function of the IPFS node as an IpfsParams record.
JavaScript exceptions are rendered as an explicit Except over JsError;
an untyped JS Error is JsError.plain, a TacoStorageError is JsError.taco.
Date values are epoch milliseconds (Nat); the ISO-string round trip the
adapters perform on createdAt is the identity on the modelled value.
-/

/-- TacoStorageErrorType from src/types/index.ts.  The source enum does not
declare INVALID_REFERENCE, yet src/adapters/ipfs/base.ts throws errors tagged
with TacoStorageErrorType.INVALID_REFERENCE (whose runtime value is then
undefined).  It is modelled as one more constructor: all the code ever does
with the tag is compare it for identity, and undefined is distinct from every
declared member, which the extra constructor reproduces. -/
inductive TacoStorageErrorType where
  | encryptionError
  | storageError
  | retrievalError
  | decryptionError
  | invalidConfig
  | adapterError
  | notFound
  | invalidReference
deriving DecidableEq

/-- A JavaScript error value as the SDK sees it: either a plain (untyped)
Error, carrying a message and an optional code property (the Kubo client
reports missing content through code ERR_NOT_FOUND), or a TacoStorageError
carrying its type tag, message, and optional originalError cause. -/
inductive JsError where
  | plain (message : String) (code : Option String)
  | taco (ty : TacoStorageErrorType) (message : String)
      (originalError : Option JsError)

/-- Decidable equality for JsError, written out because the nested Option
occurrence defeats the deriving handler. -/
def JsError.decEq : (a b : JsError) → Decidable (a = b)
  | .plain m c, .plain m2 c2 =>
    if h : m = m2 ∧ c = c2 then
      isTrue (by rw [h.1, h.2])
    else
      isFalse (by intro he; cases he; exact h ⟨rfl, rfl⟩)
  | .plain _ _, .taco _ _ _ => isFalse nofun
  | .taco _ _ _, .plain _ _ => isFalse nofun
  | .taco t m none, .taco t2 m2 none =>
    if h : t = t2 ∧ m = m2 then
      isTrue (by rw [h.1, h.2])
    else
      isFalse (by intro he; cases he; exact h ⟨rfl, rfl⟩)
  | .taco _ _ none, .taco _ _ (some _) => isFalse nofun
  | .taco _ _ (some _), .taco _ _ none => isFalse nofun
  | .taco t m (some e), .taco t2 m2 (some e2) =>
    match JsError.decEq e e2 with
    | isTrue he =>
      if h : t = t2 ∧ m = m2 then
        isTrue (by rw [h.1, h.2, he])
      else
        isFalse (by intro hh; cases hh; exact h ⟨rfl, rfl⟩)
    | isFalse he => isFalse (by intro hh; cases hh; exact he rfl)

instance : DecidableEq JsError := JsError.decEq

/-- Decidable equality for Except results, used to evaluate concrete
outcomes. -/
instance {e a : Type} [DecidableEq e] [DecidableEq a] :
    DecidableEq (Except e a) := fun x y =>
  match x, y with
  | .ok v, .ok w =>
    if h : v = w then isTrue (by rw [h])
    else isFalse (by intro hh; cases hh; exact h rfl)
  | .error v, .error w =>
    if h : v = w then isTrue (by rw [h])
    else isFalse (by intro hh; cases hh; exact h rfl)
  | .ok _, .error _ => isFalse nofun
  | .error _, .ok _ => isFalse nofun

/-- The message property of an error. -/
def JsError.message : JsError → String
  | .plain m _ => m
  | .taco _ m _ => m

/-- The code property of an error (only plain client errors carry one). -/
def JsError.code : JsError → Option String
  | .plain _ c => c
  | .taco _ _ _ => none

/-- The instanceof TacoStorageError test. -/
def JsError.isTaco : JsError → Bool
  | .plain _ _ => false
  | .taco _ _ _ => true

/-- Wrapping an error into a TacoStorageError with operation context and the
original cause attached, unconditionally (the catch blocks that do not test
instanceof). -/
def wrapError (ty : TacoStorageErrorType) (ctx : String) (e : JsError) :
    JsError :=
  .taco ty (ctx ++ e.message) (some e)

/-- The orchestrator catch pattern of store, retrieve and getMetadata:
rethrow a TacoStorageError unchanged, wrap anything else once. -/
def wrapUnlessTaco (ty : TacoStorageErrorType) (ctx : String) (e : JsError) :
    JsError :=
  if e.isTaco then e else wrapError ty ctx e

/-- StorageMetadata from src/types/index.ts.  Bytes are Lists of Nat;
encryptionMetadata is flattened into the messageKit and conditions fields;
custom holds the optional customMetadata record as an opaque association
list; createdAt is epoch milliseconds. -/
structure StorageMetadata (Cond : Type) where
  id : String
  contentType : String
  size : Nat
  createdAt : Nat
  custom : Option (List (String × String)) := none
  messageKit : List Nat
  conditions : Cond
  ipfsHash : Option String := none
deriving DecidableEq

/-- StorageResult from src/types/index.ts. -/
structure StorageResult (Cond : Type) where
  id : String
  reference : String
  metadata : StorageMetadata Cond
deriving DecidableEq

/-- RetrievalResult from src/types/index.ts. -/
structure RetrievalResult (Cond : Type) where
  data : List Nat
  metadata : StorageMetadata Cond
deriving DecidableEq

/-- The health record returned by getHealth; details is an association list
of the structured details object, holding the error message under the key
"error" when a probe failed. -/
structure HealthStatus where
  healthy : Bool
  details : List (String × String) := []
deriving DecidableEq

/-- The external TACo encryption service (src/core/encryption.ts) as a black
box: encrypt and decrypt may fail with a (typed) error; toBytes and
fromBytes serialize and reconstruct a ThresholdMessageKit; mkTimeCondition
is the condition value built by conditions.base.time.TimeCondition. -/
structure EncService (MK Cond : Type) where
  encrypt : List Nat → Cond → Except JsError MK
  decrypt : MK → Except JsError (List Nat)
  toBytes : MK → List Nat
  fromBytes : List Nat → MK
  mkTimeCondition : Nat → Cond

/-- TacoEncryptionService.createTimeCondition: rejects an end time that is
not in the future with an INVALID_CONFIG TacoStorageError. -/
def createTimeCondition {MK Cond : Type} (E : EncService MK Cond)
    (endTime now : Nat) : Except JsError Cond :=
  if endTime ≤ now then
    .error (.taco .invalidConfig "End time must be in the future" none)
  else
    .ok (E.mkTimeCondition endTime)

/-- The IStorageAdapter surface the orchestrator calls through
(src/adapters/base.ts), over an explicit backend state of type σ.
Operations that can change backend state return the new state; listOp is
the optional list capability (none when the adapter lacks it); limit and
offset arrive as optionals because the orchestrator forwards possibly
missing arguments. -/
structure AdapterOps (σ Cond : Type) where
  store : σ → List Nat → StorageMetadata Cond →
    σ × Except JsError (StorageResult Cond)
  retrieve : σ → String → Except JsError (List Nat × StorageMetadata Cond)
  deleteOp : σ → String → σ × Except JsError Bool
  existsOp : σ → String → Except JsError Bool
  listOp : Option (σ → Option Nat → Option Nat → Except JsError (List String))
  health : σ → Except JsError HealthStatus

/-- StoreOptions from src/core/storage.ts. -/
structure StoreOptions (Cond : Type) where
  id : Option String := none
  contentType : Option String := none
  metadata : Option (List (String × String)) := none
  condition : Option Cond := none
  expiresAt : Option Nat := none

/-- JavaScript String.prototype.trim: strip whitespace from both ends.  The
structural char-list rendering is used because it is what the kernel can
evaluate on concrete ids. -/
def jsTrim (s : String) : String :=
  ⟨((s.data.dropWhile Char.isWhitespace).reverse.dropWhile
      Char.isWhitespace).reverse⟩

/-- JavaScript String.prototype.startsWith as a prefix test on the char
list. -/
def jsStartsWith (s pre : String) : Bool := pre.data.isPrefixOf s.data

/-- JavaScript String.prototype.slice(n): drop the first n characters. -/
def jsDrop (s : String) (n : Nat) : String := ⟨s.data.drop n⟩

/-- BaseStorageAdapter.validateId: the id must be a string whose trim is
non-empty (an empty string also fails the leading falsiness test). -/
def validateIdOk (id : String) : Bool := !(jsTrim id = "")

/-- BaseStorageAdapter.validateData: the payload must be non-empty. -/
def validateDataOk (d : List Nat) : Bool := !(d = [])

/-- The raw Error thrown by validateId (a plain Error, not a
TacoStorageError). -/
def invalidIdError : JsError :=
  .plain "Invalid ID: must be a non-empty string" none

/-- The raw Error thrown by validateData. -/
def invalidDataError : JsError :=
  .plain "Invalid data: must be a non-empty Uint8Array" none

/-- The metadata object TacoStorage.store constructs before dispatching to
the adapter: id from options or the fresh uuid, contentType defaulted,
size set from the length of the CALLER data argument, createdAt fixed to
now, customMetadata copied, and the serialized message kit plus the
resolved conditions recorded as encryptionMetadata. -/
def TacoStorage.buildMetadata {Cond : Type} (opts : StoreOptions Cond)
    (freshId : String) (now : Nat) (serialized : List Nat) (cond : Cond)
    (dataLen : Nat) : StorageMetadata Cond :=
  { id := opts.id.getD freshId
    contentType := opts.contentType.getD "application/octet-stream"
    size := dataLen
    createdAt := now
    custom := opts.metadata
    messageKit := serialized
    conditions := cond }

/-- TacoStorage.store: reject empty data with INVALID_CONFIG before anything
else runs; resolve the condition (the supplied one, or a time condition
expiring at options.expiresAt or now plus 24 hours); encrypt; serialize the
message kit; build metadata; dispatch to the adapter.  Every failure after
the empty check is rethrown unchanged when it is already a TacoStorageError
and wrapped once as STORAGE_ERROR otherwise.  now is the clock reading and
freshId the uuid that would be generated for a missing options.id. -/
def TacoStorage.store {σ MK Cond : Type} (E : EncService MK Cond)
    (A : AdapterOps σ Cond) (st : σ) (data : List Nat)
    (opts : StoreOptions Cond) (now : Nat) (freshId : String) :
    σ × Except JsError (StorageResult Cond) :=
  if data = [] then
    (st, .error (.taco .invalidConfig "Data cannot be empty" none))
  else
    let condResult : Except JsError Cond :=
      match opts.condition with
      | some c => .ok c
      | none =>
        createTimeCondition E (opts.expiresAt.getD (now + 86400000)) now
    match condResult with
    | .error e =>
      (st, .error (wrapUnlessTaco .storageError "Failed to store data: " e))
    | .ok cond =>
      match E.encrypt data cond with
      | .error e =>
        (st, .error (wrapUnlessTaco .storageError "Failed to store data: " e))
      | .ok mk =>
        let serialized := E.toBytes mk
        let md := TacoStorage.buildMetadata opts freshId now serialized cond
          data.length
        let out := A.store st serialized md
        match out.2 with
        | .error e =>
          (out.1,
           .error (wrapUnlessTaco .storageError "Failed to store data: " e))
        | .ok res => (out.1, .ok res)

/-- TacoStorage.retrieve: reject an empty id with INVALID_CONFIG; fetch from
the adapter; rebuild the ThresholdMessageKit from the stored
encryptionMetadata.messageKit bytes (the adapter payload itself is unused by
the orchestrator); decrypt.  TacoStorageErrors pass unchanged, anything else
is wrapped once as RETRIEVAL_ERROR. -/
def TacoStorage.retrieve {σ MK Cond : Type} (E : EncService MK Cond)
    (A : AdapterOps σ Cond) (st : σ) (id : String) :
    Except JsError (RetrievalResult Cond) :=
  if id = "" then
    .error (.taco .invalidConfig "ID must be a non-empty string" none)
  else
    match A.retrieve st id with
    | .error e =>
      .error (wrapUnlessTaco .retrievalError "Failed to retrieve data: " e)
    | .ok (_, metadata) =>
      match E.decrypt (E.fromBytes metadata.messageKit) with
      | .error e =>
        .error (wrapUnlessTaco .retrievalError "Failed to retrieve data: " e)
      | .ok d => .ok { data := d, metadata := metadata }

/-- TacoStorage.delete: empty-id check, then the adapter call with a catch
that wraps EVERY error (it has no instanceof test) as STORAGE_ERROR. -/
def TacoStorage.delete {σ Cond : Type} (A : AdapterOps σ Cond) (st : σ)
    (id : String) : σ × Except JsError Bool :=
  if id = "" then
    (st, .error (.taco .invalidConfig "ID must be a non-empty string" none))
  else
    let out := A.deleteOp st id
    match out.2 with
    | .error e =>
      (out.1,
       .error (.taco .storageError ("Failed to delete data: " ++ e.message)
         (some e)))
    | .ok b => (out.1, .ok b)

/-- TacoStorage.exists: empty-id check, then the adapter call with a catch
that wraps EVERY error as STORAGE_ERROR (no instanceof test). -/
def TacoStorage.existsOp {σ Cond : Type} (A : AdapterOps σ Cond) (st : σ)
    (id : String) : Except JsError Bool :=
  if id = "" then
    .error (.taco .invalidConfig "ID must be a non-empty string" none)
  else
    match A.existsOp st id with
    | .error e =>
      .error (.taco .storageError ("Failed to check existence: " ++ e.message)
        (some e))
    | .ok b => .ok b

/-- TacoStorage.getMetadata: adapter retrieve, metadata only; the catch
rethrows TacoStorageErrors unchanged and wraps anything else once as
RETRIEVAL_ERROR. -/
def TacoStorage.getMetadata {σ Cond : Type} (A : AdapterOps σ Cond) (st : σ)
    (id : String) : Except JsError (StorageMetadata Cond) :=
  if id = "" then
    .error (.taco .invalidConfig "ID must be a non-empty string" none)
  else
    match A.retrieve st id with
    | .error e =>
      .error (wrapUnlessTaco .retrievalError "Failed to get metadata: " e)
    | .ok (_, md) => .ok md

/-- TacoStorage.list: ADAPTER_ERROR when the adapter lacks the capability,
otherwise the adapter call with a catch that wraps EVERY error as
RETRIEVAL_ERROR (no instanceof test). -/
def TacoStorage.list {σ Cond : Type} (A : AdapterOps σ Cond) (st : σ)
    (limit offset : Option Nat) : Except JsError (List String) :=
  match A.listOp with
  | none =>
    .error (.taco .adapterError "List operation not supported by this adapter"
      none)
  | some f =>
    match f st limit offset with
    | .error e =>
      .error (.taco .retrievalError ("Failed to list data: " ++ e.message)
        (some e))
    | .ok ids => .ok ids

/-- TacoStorage.getHealth: the one operation that converts a failure into a
normal return value instead of propagating it. -/
def TacoStorage.getHealth {σ Cond : Type} (A : AdapterOps σ Cond) (st : σ) :
    Except JsError HealthStatus :=
  match A.health st with
  | .ok h => .ok h
  | .error e => .ok { healthy := false, details := [("error", e.message)] }

/-- TacoStorage.cleanup: adapter cleanup with every failure wrapped as
ADAPTER_ERROR. -/
def TacoStorage.cleanup (r : Except JsError Unit) : Except JsError Unit :=
  match r with
  | .ok _ => .ok ()
  | .error e =>
    .error (.taco .adapterError ("Failed to cleanup: " ++ e.message) (some e))

/-! ## SQLite adapter (src/adapters/sqlite.ts)

The two tables the adapter creates are rendered as in-memory lists: items
(primary key `key`) and item_data (primary key `key`, one blob per id).
INSERT OR REPLACE is remove-then-append; the sqlite3 engine itself is not
modelled, so the operations below are the success behaviour of the SQL the
adapter issues. -/

/-- One row of the items table. -/
structure SqliteRow (Cond : Type) where
  key : String
  content_type : String
  size : Nat
  created_at : Nat
  message_kit : List Nat
  conditions : Cond
  metadata : Option (List (String × String))
deriving DecidableEq

/-- The database contents. -/
structure SqliteState (Cond : Type) where
  items : List (SqliteRow Cond)
  item_data : List (String × List Nat)
deriving DecidableEq

/-- SQLiteAdapter.retrieve rebuilds a StorageMetadata from an items row
(ipfsHash stays unset; the stored conditions and custom metadata round-trip
through JSON unchanged). -/
def rowToMetadata {Cond : Type} (row : SqliteRow Cond) : StorageMetadata Cond :=
  { id := row.key
    contentType := row.content_type
    size := row.size
    createdAt := row.created_at
    custom := row.metadata
    messageKit := row.message_kit
    conditions := row.conditions }

/-- SQLiteAdapter.store: validateData throws a plain Error before the try
block; then INSERT OR REPLACE into items and item_data, and a result whose
reference is the sqlite scheme locator and whose id is metadata.id. -/
def SQLiteAdapter.store {Cond : Type} (dbPath : String)
    (st : SqliteState Cond) (encryptedData : List Nat)
    (md : StorageMetadata Cond) :
    SqliteState Cond × Except JsError (StorageResult Cond) :=
  if !validateDataOk encryptedData then
    (st, .error invalidDataError)
  else
    let row : SqliteRow Cond :=
      { key := md.id
        content_type := md.contentType
        size := md.size
        created_at := md.createdAt
        message_kit := md.messageKit
        conditions := md.conditions
        metadata := md.custom }
    ({ items := st.items.filter (fun r => r.key ≠ md.id) ++ [row]
       item_data :=
         st.item_data.filter (fun p => p.1 ≠ md.id) ++ [(md.id, encryptedData)] },
     .ok { id := md.id
           reference := "sqlite://" ++ dbPath ++ "#" ++ md.id
           metadata := md })

/-- SQLiteAdapter.retrieve: validateId throws a plain Error; a missing items
row is a typed NOT_FOUND; the LEFT JOIN makes a missing item_data blob come
back as an empty byte array, not an error. -/
def SQLiteAdapter.retrieve {Cond : Type} (st : SqliteState Cond)
    (id : String) : Except JsError (List Nat × StorageMetadata Cond) :=
  if !validateIdOk id then
    .error invalidIdError
  else
    match st.items.find? (fun r => r.key = id) with
    | none => .error (.taco .notFound ("Data not found for ID: " ++ id) none)
    | some row =>
      let encryptedData :=
        ((st.item_data.find? (fun p => p.1 = id)).map Prod.snd).getD []
      .ok (encryptedData, rowToMetadata row)

/-- SQLiteAdapter.delete: nothing matching returns false; otherwise the row
is removed (the cascade clears item_data) and the post-check makes the
result true. -/
def SQLiteAdapter.delete {Cond : Type} (st : SqliteState Cond) (id : String) :
    SqliteState Cond × Except JsError Bool :=
  if !validateIdOk id then
    (st, .error invalidIdError)
  else if st.items.any (fun r => r.key = id) then
    let st2 : SqliteState Cond :=
      { items := st.items.filter (fun r => r.key ≠ id)
        item_data := st.item_data.filter (fun p => p.1 ≠ id) }
    (st2, .ok (!(st2.items.any (fun r => r.key = id))))
  else
    (st, .ok false)

/-- SQLiteAdapter.exists: a SELECT 1 probe of the items table. -/
def SQLiteAdapter.existsOp {Cond : Type} (st : SqliteState Cond)
    (id : String) : Except JsError Bool :=
  if !validateIdOk id then
    .error invalidIdError
  else
    .ok (st.items.any (fun r => r.key = id))

/-- Insertion of a row into a list already ordered by created_at descending
(the ORDER BY created_at DESC of SQLiteAdapter.list). -/
def insertByCreatedDesc {Cond : Type} (a : SqliteRow Cond) :
    List (SqliteRow Cond) → List (SqliteRow Cond)
  | [] => [a]
  | b :: l =>
    if a.created_at ≤ b.created_at then b :: insertByCreatedDesc a l
    else a :: b :: l

/-- The rows of the items table ordered by created_at descending. -/
def sortByCreatedDesc {Cond : Type} (l : List (SqliteRow Cond)) :
    List (SqliteRow Cond) :=
  l.foldr insertByCreatedDesc []

/-- The id page SQLiteAdapter.list computes: SELECT key FROM items ORDER BY
created_at DESC LIMIT limit OFFSET offset. -/
def sqliteListIds {Cond : Type} (st : SqliteState Cond)
    (limit offset : Nat) : List String :=
  (((sortByCreatedDesc st.items).map (fun r => r.key)).drop offset).take limit

/-- SQLiteAdapter.list with the source defaults limit = 100, offset = 0. -/
def SQLiteAdapter.list {Cond : Type} (st : SqliteState Cond)
    (limit offset : Option Nat) : Except JsError (List String) :=
  .ok (sqliteListIds st (limit.getD 100) (offset.getD 0))

/-- The SQLite adapter bundled for the orchestrator.  getHealth reaches the
engine only, so its success shape is modelled as a healthy report. -/
def sqliteOps {Cond : Type} (dbPath : String) :
    AdapterOps (SqliteState Cond) Cond :=
  { store := SQLiteAdapter.store dbPath
    retrieve := SQLiteAdapter.retrieve
    deleteOp := SQLiteAdapter.delete
    existsOp := SQLiteAdapter.existsOp
    listOp := some (fun st l o => SQLiteAdapter.list st l o)
    health := fun _ =>
      .ok { healthy := true, details := [("databasePath", dbPath)] } }

/-! ## IPFS adapters (src/adapters/ipfs/base.ts, kubo.ts, helia.ts)

The content-addressed node is a map from CID string to block bytes plus an
initialized flag.  The content hash function of the node and the validity
predicate behind CID.parse are black-box parameters, as are JSON.stringify
and JSON.parse on the data package the adapters persist. -/

/-- The JSON envelope the IPFS adapters persist: the encrypted payload plus
the metadata (createdAt serialized to ISO and back is the identity here). -/
structure DataPackage (Cond : Type) where
  data : List Nat
  metadata : StorageMetadata Cond
deriving DecidableEq

/-- The external pieces of the IPFS adapters. -/
structure IpfsParams (Cond : Type) where
  hashFn : List Nat → String
  isCid : String → Bool
  jsonEnc : DataPackage Cond → List Nat
  jsonDec : List Nat → Option (DataPackage Cond)

/-- BaseIPFSAdapter.parseReference: strip a leading ipfs:// scheme. -/
def parseReference (reference : String) : String :=
  if jsStartsWith reference "ipfs://" then jsDrop reference 7 else reference

/-- BaseIPFSAdapter.validateAndParseReference: parse, then reject a string
CID.parse cannot read with a typed INVALID_REFERENCE error. -/
def validateAndParseReference {Cond : Type} (P : IpfsParams Cond)
    (reference : String) : Except JsError String :=
  let hash := parseReference reference
  if P.isCid hash then .ok hash
  else
    .error (.taco .invalidReference
      ("Invalid IPFS reference format: " ++ reference) none)

/-- Kubo node state: whether initialize() created the RPC client, and the
blocks the node holds. -/
structure KuboState where
  client : Bool
  content : List (String × List Nat)
deriving DecidableEq

/-- The ADAPTER_ERROR thrown by KuboAdapter.ensureClient. -/
def kuboNotInitError : JsError :=
  .taco .adapterError
    "Kubo IPFS adapter not initialized. Call initialize() first." none

/-- KuboAdapter.addContent: needs the client; the node stores the block
under its content hash. -/
def kuboAddContent {Cond : Type} (P : IpfsParams Cond) (st : KuboState)
    (bytes : List Nat) : Except JsError (KuboState × String) :=
  if !st.client then .error kuboNotInitError
  else
    let h := P.hashFn bytes
    .ok ({ st with content := (h, bytes) :: st.content.filter (fun p => p.1 ≠ h) }, h)

/-- KuboAdapter.getContent: needs the client; the client reports a missing
block with a plain error whose code is ERR_NOT_FOUND. -/
def kuboGetContent (st : KuboState) (hash : String) :
    Except JsError (List Nat) :=
  if !st.client then .error kuboNotInitError
  else
    match st.content.find? (fun p => p.1 = hash) with
    | some p => .ok p.2
    | none => .error (.plain "block not found" (some "ERR_NOT_FOUND"))

/-- KuboAdapter.store: validateData before the try; inside it the data
package is JSON-encoded and added; the catch wraps every failure (typed or
not) as STORAGE_ERROR.  The result id is metadata.id and the reference is
the ipfs:// locator of the content hash. -/
def KuboAdapter.store {Cond : Type} (P : IpfsParams Cond) (st : KuboState)
    (encryptedData : List Nat) (md : StorageMetadata Cond) :
    KuboState × Except JsError (StorageResult Cond) :=
  if !validateDataOk encryptedData then
    (st, .error invalidDataError)
  else
    match kuboAddContent P st (P.jsonEnc { data := encryptedData, metadata := md }) with
    | .error e =>
      (st, .error (wrapError .storageError "Failed to store data on IPFS: " e))
    | .ok (st2, hash) =>
      (st2, .ok { id := md.id
                  reference := "ipfs://" ++ hash
                  metadata := { md with ipfsHash := some hash } })

/-- KuboAdapter.retrieve: validateId before the try; inside it the locator
is parsed and validated, the block fetched and JSON-decoded.  The catch maps
a client error with code ERR_NOT_FOUND to a typed NOT_FOUND and wraps every
other failure (including the typed INVALID_REFERENCE) as RETRIEVAL_ERROR. -/
def KuboAdapter.retrieve {Cond : Type} (P : IpfsParams Cond) (st : KuboState)
    (id : String) : Except JsError (List Nat × StorageMetadata Cond) :=
  if !validateIdOk id then
    .error invalidIdError
  else
    let attempt : Except JsError (List Nat × StorageMetadata Cond) := do
      let hash ← validateAndParseReference P id
      let content ← kuboGetContent st hash
      match P.jsonDec content with
      | none => .error (.plain "Unexpected end of JSON input" none)
      | some pkg => .ok (pkg.data, pkg.metadata)
    match attempt with
    | .ok r => .ok r
    | .error e =>
      if e.code = some "ERR_NOT_FOUND" then
        .error (.taco .notFound ("Data not found for ID: " ++ id) (some e))
      else
        .error (wrapError .retrievalError
          "Failed to retrieve data from IPFS: " e)

/-- KuboAdapter.delete: unpin, with a catch that returns true no matter what
went wrong; the node keeps the block (unpinning is not deletion), so the
state is unchanged. -/
def KuboAdapter.delete (st : KuboState) (id : String) :
    KuboState × Except JsError Bool :=
  if !validateIdOk id then
    (st, .error invalidIdError)
  else
    (st, .ok true)

/-- KuboAdapter.contentExists: the files.stat probe, whose catch swallows
every failure, the uninitialized-client ADAPTER_ERROR included, and reports
false. -/
def KuboAdapter.contentExists (st : KuboState) (hash : String) : Bool :=
  if !st.client then false
  else st.content.any (fun p => p.1 = hash)

/-- KuboAdapter.exists: validateId before the try; a locator CID.parse
rejects comes back false through the catch, and so does anything
contentExists could not prove. -/
def KuboAdapter.existsOp {Cond : Type} (P : IpfsParams Cond) (st : KuboState)
    (id : String) : Except JsError Bool :=
  if !validateIdOk id then
    .error invalidIdError
  else
    match validateAndParseReference P id with
    | .error _ => .ok false
    | .ok hash => .ok (KuboAdapter.contentExists st hash)

/-- KuboAdapter.getHealth: probing an absent client fails and is converted
to an unhealthy report. -/
def KuboAdapter.getHealth (st : KuboState) : Except JsError HealthStatus :=
  if st.client then .ok { healthy := true }
  else .ok { healthy := false, details := [("error", kuboNotInitError.message)] }

/-- The Kubo adapter bundled for the orchestrator; it has no list
capability. -/
def kuboOps {Cond : Type} (P : IpfsParams Cond) : AdapterOps KuboState Cond :=
  { store := KuboAdapter.store P
    retrieve := KuboAdapter.retrieve P
    deleteOp := fun st id => KuboAdapter.delete st id
    existsOp := KuboAdapter.existsOp P
    listOp := none
    health := KuboAdapter.getHealth }

/-- Helia node state: whether initialize() created the embedded node, and
the blocks it holds. -/
structure HeliaState where
  node : Bool
  content : List (String × List Nat)
deriving DecidableEq

/-- The ADAPTER_ERROR thrown by HeliaAdapter.ensureHeliaReady. -/
def heliaNotInitError : JsError :=
  .taco .adapterError
    "Helia IPFS adapter not initialized. Call initialize() first." none

/-- HeliaAdapter.store: validateData before the try; add the JSON-encoded
package, pin it, and wrap every failure as STORAGE_ERROR. -/
def HeliaAdapter.store {Cond : Type} (P : IpfsParams Cond) (st : HeliaState)
    (encryptedData : List Nat) (md : StorageMetadata Cond) :
    HeliaState × Except JsError (StorageResult Cond) :=
  if !validateDataOk encryptedData then
    (st, .error invalidDataError)
  else if !st.node then
    (st, .error (wrapError .storageError "Failed to store data using Helia: "
      heliaNotInitError))
  else
    let bytes := P.jsonEnc { data := encryptedData, metadata := md }
    let hash := P.hashFn bytes
    ({ st with content := (hash, bytes) :: st.content.filter (fun p => p.1 ≠ hash) },
     .ok { id := md.id
           reference := "ipfs://" ++ hash
           metadata := { md with ipfsHash := some hash } })

/-- HeliaAdapter.getContent: needs the node; a valid CID whose block is
absent surfaces as a typed NOT_FOUND (the adapter maps the not-found failure
of fs.cat). -/
def heliaGetContent {Cond : Type} (P : IpfsParams Cond) (st : HeliaState)
    (hash : String) : Except JsError (List Nat) :=
  if !st.node then .error heliaNotInitError
  else if !P.isCid hash then
    .error (.taco .invalidReference ("Invalid IPFS hash format: " ++ hash) none)
  else
    match st.content.find? (fun p => p.1 = hash) with
    | some p => .ok p.2
    | none => .error (.taco .notFound ("Content not found for hash: " ++ hash) none)

/-- HeliaAdapter.retrieve: validateId before the try; the catch rethrows a
typed NOT_FOUND unchanged and wraps every other failure as
RETRIEVAL_ERROR. -/
def HeliaAdapter.retrieve {Cond : Type} (P : IpfsParams Cond)
    (st : HeliaState) (id : String) :
    Except JsError (List Nat × StorageMetadata Cond) :=
  if !validateIdOk id then
    .error invalidIdError
  else
    let attempt : Except JsError (List Nat × StorageMetadata Cond) := do
      let hash ← validateAndParseReference P id
      let content ← heliaGetContent P st hash
      match P.jsonDec content with
      | none => .error (.plain "Unexpected end of JSON input" none)
      | some pkg => .ok (pkg.data, pkg.metadata)
    match attempt with
    | .ok r => .ok r
    | .error (.taco .notFound m o) => .error (.taco .notFound m o)
    | .error e =>
      .error (wrapError .retrievalError "Failed to retrieve data using Helia: " e)

/-- HeliaAdapter.delete: validateId, then unpin inside a catch that rethrows
an ADAPTER_ERROR (the uninitialized node) and answers true to everything
else; the block itself stays. -/
def HeliaAdapter.delete (st : HeliaState) (id : String) :
    HeliaState × Except JsError Bool :=
  if !validateIdOk id then
    (st, .error invalidIdError)
  else if !st.node then
    (st, .error heliaNotInitError)
  else
    (st, .ok true)

/-- HeliaAdapter.exists: validateId before the try; a locator CID.parse
rejects is answered false through the catch even on an uninitialized node
(INVALID_REFERENCE is not ADAPTER_ERROR); with a valid CID, contentExists
first needs the node, and that ADAPTER_ERROR is rethrown by the catch. -/
def HeliaAdapter.existsOp {Cond : Type} (P : IpfsParams Cond)
    (st : HeliaState) (id : String) : Except JsError Bool :=
  if !validateIdOk id then
    .error invalidIdError
  else
    match validateAndParseReference P id with
    | .error _ => .ok false
    | .ok hash =>
      if !st.node then .error heliaNotInitError
      else .ok (st.content.any (fun p => p.1 = hash))

/-- HeliaAdapter.getHealth: an uninitialized node is reported unhealthy, a
started node healthy. -/
def HeliaAdapter.getHealth (st : HeliaState) : Except JsError HealthStatus :=
  if st.node then .ok { healthy := true }
  else
    .ok { healthy := false, details := [("error", "Helia adapter not initialized")] }

/-- The Helia adapter bundled for the orchestrator; it has no list
capability. -/
def heliaOps {Cond : Type} (P : IpfsParams Cond) :
    AdapterOps HeliaState Cond :=
  { store := HeliaAdapter.store P
    retrieve := HeliaAdapter.retrieve P
    deleteOp := fun st id => HeliaAdapter.delete st id
    existsOp := HeliaAdapter.existsOp P
    listOp := none
    health := HeliaAdapter.getHealth }

/-! ## Pinata adapter (src/adapters/pinata.ts), store path -/

/-- Pinata backend state: the SDK client flag and the uploaded files under
their service-assigned upload ids. -/
structure PinataState where
  client : Bool
  uploads : List (String × List Nat)
deriving DecidableEq

/-- The ADAPTER_ERROR thrown by PinataAdapter.ensureClient. -/
def pinataNotInitError : JsError :=
  .taco .adapterError
    "Pinata adapter not initialized. Call initialize() first." none

/-- PinataAdapter.store: validateData and ensureClient run before the try
(their failures propagate unwrapped); the upload hands back a
service-assigned id (uploadId here, result.id in the source), and THAT id,
not metadata.id, becomes the result id and the basis of the gateway
reference, while the returned metadata still carries the original
metadata.id. -/
def PinataAdapter.store {Cond : Type} (P : IpfsParams Cond) (url : String)
    (uploadId : String) (st : PinataState) (encryptedData : List Nat)
    (md : StorageMetadata Cond) :
    PinataState × Except JsError (StorageResult Cond) :=
  if !validateDataOk encryptedData then
    (st, .error invalidDataError)
  else if !st.client then
    (st, .error pinataNotInitError)
  else
    let bytes := P.jsonEnc { data := encryptedData, metadata := md }
    ({ st with uploads := (uploadId, bytes) :: st.uploads },
     .ok { id := uploadId
           reference := "https://" ++ url ++ "/ipfs/" ++ uploadId
           metadata := md })

/-! ## Helper lemmas -/

theorem find?_key_filter_append {α : Type} (f : α → String) (k : String)
    (l : List α) (a : α) (h : f a = k) :
    ((l.filter (fun r => f r ≠ k)) ++ [a]).find? (fun r => f r = k) = some a := by
  induction l with
  | nil => simp [List.find?, h]
  | cons b l ih =>
    by_cases hb : f b = k
    · simpa [List.filter, hb] using ih
    · simp only [List.filter, hb]
      simpa [List.find?, hb] using ih

theorem any_eq_false_of_find?_eq_none {α : Type} {p : α → Bool} {l : List α}
    (h : l.find? p = none) : l.any p = false := by
  rw [List.any_eq_false]
  intro x hx hpx
  exact absurd hpx (List.find?_eq_none.1 h x hx)

theorem ne_empty_of_validateId {id : String} (h : validateIdOk id = true) :
    id ≠ "" := by
  intro he
  subst he
  simp [validateIdOk, jsTrim] at h

theorem parseReference_ipfs (h : String) :
    parseReference ("ipfs://" ++ h) = h := by
  have hpre : jsStartsWith ("ipfs://" ++ h) "ipfs://" = true := by
    have : ("ipfs://" ++ h).data = "ipfs://".data ++ h.data := rfl
    rw [jsStartsWith, this]
    exact List.isPrefixOf_iff_prefix.2 (List.prefix_append _ _)
  rw [parseReference, if_pos hpre]
  show (⟨("ipfs://".data ++ h.data).drop 7⟩ : String) = h
  have h7 : ("ipfs://".data).length = 7 := rfl
  rw [← h7, List.drop_left]

theorem dropWhile_ne_nil_of_mem {l : List Char} {c : Char} (hc : c ∈ l)
    (hw : Char.isWhitespace c = false) :
    l.dropWhile Char.isWhitespace ≠ [] := by
  induction l with
  | nil => cases hc
  | cons a l ih =>
    rw [List.dropWhile]
    cases ha : Char.isWhitespace a with
    | false => simp
    | true =>
      rcases List.mem_cons.1 hc with rfl | hc2
      · rw [ha] at hw; cases hw
      · simpa using ih hc2

theorem jsTrim_ipfs_ne (h : String) : jsTrim ("ipfs://" ++ h) ≠ "" := by
  intro he
  have hd := congrArg String.data he
  simp only [jsTrim] at hd
  rw [show ("ipfs://" ++ h).data = 'i' :: ("pfs://".data ++ h.data) from rfl]
    at hd
  rw [show ('i' :: ("pfs://".data ++ h.data)).dropWhile Char.isWhitespace
      = 'i' :: ("pfs://".data ++ h.data) by
    rw [List.dropWhile_cons]; simp] at hd
  rw [List.reverse_eq_nil_iff] at hd
  exact dropWhile_ne_nil_of_mem
    (List.mem_reverse.2 (List.mem_cons_self _ _)) (by decide) hd

theorem validateId_ipfs (h : String) :
    validateIdOk ("ipfs://" ++ h) = true := by
  simp [validateIdOk, jsTrim_ipfs_ne h]

theorem validateId_true_iff {id : String} :
    validateIdOk id = true ↔ jsTrim id ≠ "" := by
  rw [validateIdOk, Bool.not_eq_true']
  exact Bool.eq_false_iff.trans (by simp)

/-! ## Shared concrete instances for evaluations -/

/-- Identity encryption service on byte lists: encryption and decryption are
mutually inverse black boxes, serialization is the identity. -/
def encId : EncService (List Nat) Unit :=
  { encrypt := fun d _ => .ok d
    decrypt := fun m => .ok m
    toBytes := fun m => m
    fromBytes := fun b => b
    mkTimeCondition := fun _ => () }

/-! ## Claim C5 -/

/-- Claim C5: TacoStorage.store on empty data answers INVALID_CONFIG at
once.  The equation holds for EVERY adapter and encryption service and
returns the backend state unchanged, so the encryption service and the
store method of the adapter are never invoked and no backend state
changes. -/
theorem store_empty_rejected {σ MK Cond : Type} (E : EncService MK Cond)
    (A : AdapterOps σ Cond) (st : σ) (opts : StoreOptions Cond) (now : Nat)
    (freshId : String) :
    TacoStorage.store E A st [] opts now freshId
      = (st, .error (.taco .invalidConfig "Data cannot be empty" none)) := rfl

/-! ## Claim C8 -/

/-- Claim C8: TacoStorage.getHealth never propagates an error: whatever the
health probe of the adapter does, the orchestrator returns normally, and a
probe failure is converted into healthy false with the failure message
under the error key of the details. -/
theorem getHealth_never_throws {σ Cond : Type} (A : AdapterOps σ Cond)
    (st : σ) :
    (∃ h, TacoStorage.getHealth A st = .ok h) ∧
    (∀ e, A.health st = .error e →
      TacoStorage.getHealth A st
        = .ok { healthy := false, details := [("error", e.message)] }) := by
  constructor
  · rw [TacoStorage.getHealth]
    cases hh : A.health st with
    | ok v => exact ⟨v, rfl⟩
    | error e => exact ⟨_, rfl⟩
  · intro e he
    rw [TacoStorage.getHealth, he]

/-- An adapter whose backend is unreachable: every probe fails with a plain
connection error. -/
def unreachableOps : AdapterOps Unit Unit :=
  { store := fun st _ _ => (st, .error (.plain "ECONNREFUSED" none))
    retrieve := fun _ _ => .error (.plain "ECONNREFUSED" none)
    deleteOp := fun st _ => (st, .error (.plain "ECONNREFUSED" none))
    existsOp := fun _ _ => .error (.plain "ECONNREFUSED" none)
    listOp := none
    health := fun _ => .error (.plain "ECONNREFUSED" none) }

/-- Witness for C8 at a concrete unreachable adapter. -/
theorem getHealth_never_throws_witness :
    TacoStorage.getHealth unreachableOps ()
      = .ok { healthy := false, details := [("error", "ECONNREFUSED")] } :=
  (getHealth_never_throws unreachableOps ()).2 (.plain "ECONNREFUSED" none) rfl

/-! ## Claim C10 -/

/-- Claim C10: when the items row for an id is present but the item_data row
is absent, SQLiteAdapter.retrieve does not answer NOT_FOUND: the LEFT JOIN
yields a null blob, and the adapter returns the empty byte array together
with the metadata rebuilt from the row. -/
theorem sqlite_retrieve_missing_blob {Cond : Type}
    (st : SqliteState Cond) (id : String) (row : SqliteRow Cond)
    (hid : validateIdOk id = true)
    (hrow : st.items.find? (fun r => r.key = id) = some row)
    (hdata : st.item_data.find? (fun p => p.1 = id) = none) :
    SQLiteAdapter.retrieve st id = .ok ([], rowToMetadata row) := by
  simp [SQLiteAdapter.retrieve, hid, hrow, hdata]

/-- An items row whose item_data counterpart is missing. -/
def rowC10 : SqliteRow Unit :=
  { key := "orphan"
    content_type := "text/plain"
    size := 3
    created_at := 11
    message_kit := [1, 2]
    conditions := ()
    metadata := none }

/-- Witness for C10 at a concrete one-row database with no blob. -/
theorem sqlite_retrieve_missing_blob_witness :
    SQLiteAdapter.retrieve (⟨[rowC10], []⟩ : SqliteState Unit) "orphan"
      = .ok ([], rowToMetadata rowC10) :=
  sqlite_retrieve_missing_blob _ _ rowC10 (by decide) (by decide) rfl

/-! ## Claim C3 -/

/-- Claim C3 (amended): the propagation policy is split.  Through store,
retrieve and getMetadata a typed TacoStorageError passes unchanged (type
identity) and an untyped error is wrapped exactly once with the operation
context and the original cause attached; through delete, exists and list
EVERY error, typed or not, is wrapped exactly once with context and cause
(their catch blocks have no instanceof test). -/
theorem error_propagation_policy {σ MK Cond : Type} (E : EncService MK Cond)
    (A : AdapterOps σ Cond) (st st2 : σ) (id : String) (e : JsError)
    (hid : id ≠ "") :
    (A.retrieve st id = .error e →
      (e.isTaco = true → TacoStorage.retrieve E A st id = .error e) ∧
      (e.isTaco = false → TacoStorage.retrieve E A st id
          = .error (.taco .retrievalError
              ("Failed to retrieve data: " ++ e.message) (some e)))) ∧
    (A.retrieve st id = .error e →
      (e.isTaco = true → TacoStorage.getMetadata A st id = .error e) ∧
      (e.isTaco = false → TacoStorage.getMetadata A st id
          = .error (.taco .retrievalError
              ("Failed to get metadata: " ++ e.message) (some e)))) ∧
    (∀ (data : List Nat) (opts : StoreOptions Cond) (c : Cond) (mk : MK)
        (now : Nat) (freshId : String),
      data ≠ [] → opts.condition = some c → E.encrypt data c = .ok mk →
      A.store st (E.toBytes mk)
          (TacoStorage.buildMetadata opts freshId now (E.toBytes mk) c
            data.length) = (st2, .error e) →
      (e.isTaco = true →
        TacoStorage.store E A st data opts now freshId = (st2, .error e)) ∧
      (e.isTaco = false →
        TacoStorage.store E A st data opts now freshId
          = (st2, .error (.taco .storageError
              ("Failed to store data: " ++ e.message) (some e))))) ∧
    (A.deleteOp st id = (st2, .error e) →
      TacoStorage.delete A st id
        = (st2, .error (.taco .storageError
            ("Failed to delete data: " ++ e.message) (some e)))) ∧
    (A.existsOp st id = .error e →
      TacoStorage.existsOp A st id
        = .error (.taco .storageError
            ("Failed to check existence: " ++ e.message) (some e))) ∧
    (∀ f lim off, A.listOp = some f → f st lim off = .error e →
      TacoStorage.list A st lim off
        = .error (.taco .retrievalError
            ("Failed to list data: " ++ e.message) (some e))) := by
  refine ⟨?_, ?_, ?_, ?_, ?_, ?_⟩
  · intro hr
    constructor
    · intro ht
      simp [TacoStorage.retrieve, hid, hr, wrapUnlessTaco, ht]
    · intro ht
      simp [TacoStorage.retrieve, hid, hr, wrapUnlessTaco, ht, wrapError]
  · intro hr
    constructor
    · intro ht
      simp [TacoStorage.getMetadata, hid, hr, wrapUnlessTaco, ht]
    · intro ht
      simp [TacoStorage.getMetadata, hid, hr, wrapUnlessTaco, ht, wrapError]
  · intro data opts c mk now freshId hdata hc henc hstore
    constructor
    · intro ht
      simp [TacoStorage.store, hdata, hc, henc, hstore, wrapUnlessTaco, ht]
    · intro ht
      simp [TacoStorage.store, hdata, hc, henc, hstore, wrapUnlessTaco, ht,
        wrapError]
  · intro hd
    simp [TacoStorage.delete, hid, hd]
  · intro hx
    simp [TacoStorage.existsOp, hid, hx]
  · intro f lim off hf hl
    simp [TacoStorage.list, hf, hl]

/-- An adapter whose operations all fail with a typed TacoStorageError, the
way the SQLite adapter surfaces an engine failure. -/
def tacoFailOps : AdapterOps Unit Unit :=
  { store := fun st _ _ =>
      (st, .error (.taco .storageError "SQLITE_IOERR" none))
    retrieve := fun _ _ => .error (.taco .storageError "SQLITE_IOERR" none)
    deleteOp := fun st _ =>
      (st, .error (.taco .storageError "SQLITE_IOERR" none))
    existsOp := fun _ _ => .error (.taco .storageError "SQLITE_IOERR" none)
    listOp := some (fun _ _ _ =>
      .error (.taco .storageError "SQLITE_IOERR" none))
    health := fun _ => .ok { healthy := true } }

/-- Witness for C3 at a concrete adapter: a typed retrieve error passes
unchanged, while delete wraps the same typed error with context and
cause. -/
theorem error_propagation_policy_witness :
    TacoStorage.retrieve encId tacoFailOps () "k"
      = .error (.taco .storageError "SQLITE_IOERR" none) ∧
    TacoStorage.delete tacoFailOps () "k"
      = ((), .error (.taco .storageError "Failed to delete data: SQLITE_IOERR"
          (some (.taco .storageError "SQLITE_IOERR" none)))) := by
  have h := error_propagation_policy encId tacoFailOps () () "k"
    (.taco .storageError "SQLITE_IOERR" none) (by decide)
  exact ⟨(h.1 rfl).1 rfl, h.2.2.2.1 rfl⟩

/-- Counterexample for C3 as frozen: the orchestrator delete does NOT
propagate a typed adapter error unchanged; the typed error comes back
re-wrapped in a fresh STORAGE_ERROR. -/
theorem delete_rewraps_typed_error :
    TacoStorage.delete tacoFailOps () "k"
      ≠ ((), .error (.taco .storageError "SQLITE_IOERR" none)) := by
  decide

/-! ## Reduction lemmas for the store pipeline -/

/-- Reduction of TacoStorage.store when the data is non-empty, an explicit
condition is supplied and encryption succeeds: everything from there on is
the adapter call on the serialized kit and the built metadata. -/
theorem TacoStorage.store_reduce {σ MK Cond : Type} (E : EncService MK Cond)
    (A : AdapterOps σ Cond) (st : σ) (data : List Nat)
    (opts : StoreOptions Cond) (c : Cond) (mk : MK) (now : Nat)
    (freshId : String) (hdata : data ≠ []) (hc : opts.condition = some c)
    (henc : E.encrypt data c = .ok mk) :
    TacoStorage.store E A st data opts now freshId
      = ((A.store st (E.toBytes mk)
            (TacoStorage.buildMetadata opts freshId now (E.toBytes mk) c
              data.length)).1,
         match (A.store st (E.toBytes mk)
            (TacoStorage.buildMetadata opts freshId now (E.toBytes mk) c
              data.length)).2 with
         | .error e =>
           .error (wrapUnlessTaco .storageError "Failed to store data: " e)
         | .ok res => .ok res) := by
  simp only [TacoStorage.store, hdata, if_neg, hc, henc]
  cases hh : (A.store st (E.toBytes mk)
      (TacoStorage.buildMetadata opts freshId now (E.toBytes mk) c
        data.length)).2 <;> simp [hh]

/-- Reduction of SQLiteAdapter.store on a non-empty payload: the replaced
rows and the returned result, spelled out. -/
theorem sqlite_store_ok_eq {Cond : Type} (dbPath : String)
    (st : SqliteState Cond) (d : List Nat) (md : StorageMetadata Cond)
    (hd : d ≠ []) :
    SQLiteAdapter.store dbPath st d md
      = ({ items := st.items.filter (fun r => r.key ≠ md.id) ++
             [{ key := md.id
                content_type := md.contentType
                size := md.size
                created_at := md.createdAt
                message_kit := md.messageKit
                conditions := md.conditions
                metadata := md.custom }]
           item_data := st.item_data.filter (fun p => p.1 ≠ md.id) ++
             [(md.id, d)] },
         .ok { id := md.id
               reference := "sqlite://" ++ dbPath ++ "#" ++ md.id
               metadata := md }) := by
  simp [SQLiteAdapter.store, validateDataOk, hd]

/-! ## Claim C2 -/

/-- Claim C2 (amended): the size recorded in the metadata handed to the
adapter, and returned in the StorageResult, is the length of the CALLER
plaintext argument, not the length of the serialized encrypted payload that
is actually handed to the store method of the adapter (shown against the
SQLite adapter, whose item_data table receives the serialized kit). -/
theorem size_is_plaintext_length {MK Cond : Type} (E : EncService MK Cond)
    (dbPath : String) (st : SqliteState Cond) (data : List Nat)
    (opts : StoreOptions Cond) (c : Cond) (mk : MK) (now : Nat)
    (freshId : String) (hdata : data ≠ []) (hc : opts.condition = some c)
    (henc : E.encrypt data c = .ok mk) (hser : E.toBytes mk ≠ []) :
    ∃ st2 r,
      TacoStorage.store E (sqliteOps dbPath) st data opts now freshId
        = (st2, .ok r) ∧
      r.metadata.size = data.length ∧
      st2.item_data.find? (fun p => p.1 = r.id)
        = some (r.id, E.toBytes mk) := by
  rw [TacoStorage.store_reduce E (sqliteOps dbPath) st data opts c mk now
    freshId hdata hc henc]
  simp only [sqliteOps]
  rw [sqlite_store_ok_eq dbPath st _ _ hser]
  refine ⟨_, _, rfl, rfl, ?_⟩
  exact find?_key_filter_append (fun p : String × List Nat => p.1) _ _ _ rfl

/-- An encryption service whose serialized kit is one byte longer than the
plaintext, the way a real ciphertext envelope outgrows its plaintext. -/
def encPad : EncService (List Nat) Unit :=
  { encrypt := fun d _ => .ok d
    decrypt := fun m => .ok m
    toBytes := fun m => m ++ [0]
    fromBytes := fun b => b.dropLast
    mkTimeCondition := fun _ => () }

/-- Witness for C2 (amended) at a concrete store: plaintext of length 3,
serialized payload of length 4. -/
theorem size_is_plaintext_length_witness :
    ∃ (st2 : SqliteState Unit) (r : StorageResult Unit),
      TacoStorage.store encPad (sqliteOps ":memory:")
          (⟨[], []⟩ : SqliteState Unit) [7, 7, 7]
          { condition := some () } 0 "a" = (st2, .ok r) ∧
      r.metadata.size = [7, 7, 7].length ∧
      st2.item_data.find? (fun p => p.1 = r.id)
        = some (r.id, encPad.toBytes [7, 7, 7]) :=
  size_is_plaintext_length encPad ":memory:" ⟨[], []⟩ [7, 7, 7]
    { condition := some () } () [7, 7, 7] 0 "a" (by decide) rfl rfl
    (by decide)

/-- Counterexample for C2 as frozen: at a concrete store the blob handed to
the backend has length 4 while the recorded size is 3, so size does NOT
equal the byte length of the serialized encrypted payload. -/
theorem size_differs_from_payload_length :
    (TacoStorage.store encPad (sqliteOps ":memory:")
        (⟨[], []⟩ : SqliteState Unit) [7, 7, 7]
        { condition := some () } 0 "a").1.item_data
      = [("a", [7, 7, 7, 0])] ∧
    (TacoStorage.store encPad (sqliteOps ":memory:")
        (⟨[], []⟩ : SqliteState Unit) [7, 7, 7]
        { condition := some () } 0 "a").2.map
          (fun r => r.metadata.size) = .ok 3 ∧
    (3 : Nat) ≠ [7, 7, 7, 0].length := by
  refine ⟨rfl, rfl, by decide⟩

/-! ## Claim C4 -/

/-- Claim C4 (amended): on an initialized adapter and an id no stored object
matches, retrieve answers a typed NOT_FOUND and exists answers false on the
SQLite, Kubo and Helia adapters alike; delete answers false on the keyed
SQLite adapter, but the content-addressed Kubo and Helia adapters answer
true unconditionally from delete (unpin semantics, nothing ever reports a
missing pin). -/
theorem absence_semantics {Cond : Type} (P : IpfsParams Cond)
    (stS : SqliteState Cond) (idS : String)
    (stK : KuboState) (idK : String)
    (stH : HeliaState) (idH : String)
    (hidS : validateIdOk idS = true)
    (habsS : stS.items.find? (fun r => r.key = idS) = none)
    (hidK : validateIdOk idK = true)
    (hcidK : P.isCid (parseReference idK) = true)
    (hclientK : stK.client = true)
    (habsK : stK.content.find? (fun p => p.1 = parseReference idK) = none)
    (hidH : validateIdOk idH = true)
    (hcidH : P.isCid (parseReference idH) = true)
    (hnodeH : stH.node = true)
    (habsH : stH.content.find? (fun p => p.1 = parseReference idH) = none) :
    SQLiteAdapter.retrieve stS idS
        = .error (.taco .notFound ("Data not found for ID: " ++ idS) none) ∧
    SQLiteAdapter.delete stS idS = (stS, .ok false) ∧
    SQLiteAdapter.existsOp stS idS = .ok false ∧
    KuboAdapter.retrieve P stK idK
        = .error (.taco .notFound ("Data not found for ID: " ++ idK)
            (some (.plain "block not found" (some "ERR_NOT_FOUND")))) ∧
    KuboAdapter.delete stK idK = (stK, .ok true) ∧
    KuboAdapter.existsOp P stK idK = .ok false ∧
    HeliaAdapter.retrieve P stH idH
        = .error (.taco .notFound
            ("Content not found for hash: " ++ parseReference idH) none) ∧
    HeliaAdapter.delete stH idH = (stH, .ok true) ∧
    HeliaAdapter.existsOp P stH idH = .ok false := by
  have hanyS := any_eq_false_of_find?_eq_none habsS
  have hanyK := any_eq_false_of_find?_eq_none habsK
  have hanyH := any_eq_false_of_find?_eq_none habsH
  refine ⟨?_, ?_, ?_, ?_, ?_, ?_, ?_, ?_, ?_⟩
  · simp [SQLiteAdapter.retrieve, hidS, habsS]
  · simp [SQLiteAdapter.delete, hidS, hanyS]
  · simp [SQLiteAdapter.existsOp, hidS, hanyS]
  · simp [KuboAdapter.retrieve, hidK, validateAndParseReference, hcidK,
      kuboGetContent, hclientK, habsK, JsError.code, Except.bind, bind]
  · simp [KuboAdapter.delete, hidK]
  · simp [KuboAdapter.existsOp, hidK, validateAndParseReference, hcidK,
      KuboAdapter.contentExists, hclientK, hanyK]
  · simp [HeliaAdapter.retrieve, hidH, validateAndParseReference, hcidH,
      heliaGetContent, hnodeH, habsH, Except.bind, bind]
  · simp [HeliaAdapter.delete, hidH, hnodeH]
  · simp [HeliaAdapter.existsOp, hidH, validateAndParseReference, hcidH,
      hnodeH, hanyH]

/-- Concrete IPFS externals: a constant content hash that looks like a CID,
CID validity as a bafy prefix test, the payload itself as its JSON encoding,
and a decoder that never succeeds (no retrieval decodes in these
evaluations). -/
def ipfsParamsAbs : IpfsParams Unit :=
  { hashFn := fun _ => "bafyblock"
    isCid := fun s => jsStartsWith s "bafy"
    jsonEnc := fun q => q.data
    jsonDec := fun _ => none }

/-- Witness for C4 at concrete empty initialized backends and unknown
ids. -/
theorem absence_semantics_witness :
    SQLiteAdapter.retrieve (⟨[], []⟩ : SqliteState Unit) "missing"
        = .error (.taco .notFound "Data not found for ID: missing" none) ∧
    SQLiteAdapter.delete (⟨[], []⟩ : SqliteState Unit) "missing"
        = (⟨[], []⟩, .ok false) ∧
    SQLiteAdapter.existsOp (⟨[], []⟩ : SqliteState Unit) "missing"
        = .ok false ∧
    KuboAdapter.retrieve ipfsParamsAbs ⟨true, []⟩ "bafyabsent"
        = .error (.taco .notFound "Data not found for ID: bafyabsent"
            (some (.plain "block not found" (some "ERR_NOT_FOUND")))) ∧
    KuboAdapter.delete ⟨true, []⟩ "bafyabsent" = (⟨true, []⟩, .ok true) ∧
    KuboAdapter.existsOp ipfsParamsAbs ⟨true, []⟩ "bafyabsent" = .ok false ∧
    HeliaAdapter.retrieve ipfsParamsAbs ⟨true, []⟩ "bafyabsent"
        = .error (.taco .notFound "Content not found for hash: bafyabsent"
            none) ∧
    HeliaAdapter.delete ⟨true, []⟩ "bafyabsent" = (⟨true, []⟩, .ok true) ∧
    HeliaAdapter.existsOp ipfsParamsAbs ⟨true, []⟩ "bafyabsent"
        = .ok false := by
  have h := absence_semantics ipfsParamsAbs (⟨[], []⟩ : SqliteState Unit)
    "missing" ⟨true, []⟩ "bafyabsent" ⟨true, []⟩ "bafyabsent"
    (by decide) rfl (by decide) (by decide) rfl rfl
    (by decide) (by decide) rfl rfl
  exact h

/-- Counterexample for C4 as frozen: Kubo delete on an id nothing matches
answers true, not false. -/
theorem kubo_delete_unknown_not_false :
    KuboAdapter.delete ⟨true, []⟩ "bafyabsent"
        = ((⟨true, []⟩ : KuboState), .ok true) ∧
    ((⟨true, []⟩ : KuboState), (.ok true : Except JsError Bool))
        ≠ (⟨true, []⟩, .ok false) := by
  exact ⟨rfl, by decide⟩

/-! ## Claim C6 -/

/-- Claim C6 (amended): exists is best effort on the IPFS adapters: a
malformed locator (one CID.parse rejects) and an unprovable existence both
come back false rather than thrown, whether or not the adapter is
initialized; on an adapter whose initialize has not succeeded, the Helia
adapter rethrows the ADAPTER_ERROR from a well-formed locator, but the Kubo
adapter answers false even then, because its contentExists catch swallows
the initialization error. -/
theorem exists_best_effort {Cond : Type} (P : IpfsParams Cond)
    (stK stK0 : KuboState) (stH0 : HeliaState) (bad goodK goodH : String)
    (hbadId : validateIdOk bad = true)
    (hbadCid : P.isCid (parseReference bad) = false)
    (hgoodKId : validateIdOk goodK = true)
    (hgoodKCid : P.isCid (parseReference goodK) = true)
    (hgoodHId : validateIdOk goodH = true)
    (hgoodHCid : P.isCid (parseReference goodH) = true)
    (hKinit : stK.client = true)
    (habsK : stK.content.find? (fun p => p.1 = parseReference goodK) = none)
    (hK0 : stK0.client = false) (hH0 : stH0.node = false) :
    KuboAdapter.existsOp P stK0 bad = .ok false ∧
    HeliaAdapter.existsOp P stH0 bad = .ok false ∧
    KuboAdapter.existsOp P stK goodK = .ok false ∧
    HeliaAdapter.existsOp P stH0 goodH = .error heliaNotInitError ∧
    KuboAdapter.existsOp P stK0 goodK = .ok false := by
  refine ⟨?_, ?_, ?_, ?_, ?_⟩
  · simp [KuboAdapter.existsOp, hbadId, validateAndParseReference, hbadCid]
  · simp [HeliaAdapter.existsOp, hbadId, validateAndParseReference, hbadCid]
  · simp [KuboAdapter.existsOp, hgoodKId, validateAndParseReference,
      hgoodKCid, KuboAdapter.contentExists, hKinit,
      any_eq_false_of_find?_eq_none habsK]
  · simp [HeliaAdapter.existsOp, hgoodHId, validateAndParseReference,
      hgoodHCid, hH0]
  · simp [KuboAdapter.existsOp, hgoodKId, validateAndParseReference,
      hgoodKCid, KuboAdapter.contentExists, hK0]

/-- Witness for C6 at concrete states: a malformed and a well-formed
locator against initialized and uninitialized nodes. -/
theorem exists_best_effort_witness :
    KuboAdapter.existsOp ipfsParamsAbs ⟨false, []⟩ "not-a-cid" = .ok false ∧
    HeliaAdapter.existsOp ipfsParamsAbs ⟨false, []⟩ "not-a-cid" = .ok false ∧
    KuboAdapter.existsOp ipfsParamsAbs ⟨true, []⟩ "bafygood" = .ok false ∧
    HeliaAdapter.existsOp ipfsParamsAbs ⟨false, []⟩ "bafygood"
        = .error heliaNotInitError ∧
    KuboAdapter.existsOp ipfsParamsAbs ⟨false, []⟩ "bafygood" = .ok false :=
  exists_best_effort ipfsParamsAbs ⟨true, []⟩ ⟨false, []⟩ ⟨false, []⟩
    "not-a-cid" "bafygood" "bafygood" (by decide) (by decide) (by decide)
    (by decide) (by decide) (by decide) rfl rfl rfl rfl

/-- Counterexample for C6 as frozen: exists on an uninitialized Kubo
adapter, with a well-formed locator, returns false normally instead of
throwing. -/
theorem kubo_exists_uninitialized_no_throw :
    KuboAdapter.existsOp ipfsParamsAbs ⟨false, []⟩ "bafygood" = .ok false ∧
    (Except.ok false : Except JsError Bool).isOk = true :=
  ⟨rfl, rfl⟩

/-! ## Claim C9 -/

/-- Claim C9: every successful SQLite, Kubo and Helia store returns a result
whose id is the metadata id it was given, while a successful Pinata store
returns the service-assigned upload id together with the unchanged metadata,
so whenever the service assigns something other than metadata.id the
caller-facing id differs from the id recorded inside the stored metadata. -/
theorem result_id_provenance {Cond : Type} (P : IpfsParams Cond)
    (dbPath url : String) :
    (∀ (st st2 : SqliteState Cond) (d : List Nat) (md : StorageMetadata Cond)
        (r : StorageResult Cond),
      SQLiteAdapter.store dbPath st d md = (st2, .ok r) → r.id = md.id) ∧
    (∀ (st st2 : KuboState) (d : List Nat) (md : StorageMetadata Cond)
        (r : StorageResult Cond),
      KuboAdapter.store P st d md = (st2, .ok r) → r.id = md.id) ∧
    (∀ (st st2 : HeliaState) (d : List Nat) (md : StorageMetadata Cond)
        (r : StorageResult Cond),
      HeliaAdapter.store P st d md = (st2, .ok r) → r.id = md.id) ∧
    (∀ (upId : String) (st st2 : PinataState) (d : List Nat)
        (md : StorageMetadata Cond) (r : StorageResult Cond),
      PinataAdapter.store P url upId st d md = (st2, .ok r) →
        r.id = upId ∧ r.metadata = md ∧
        (upId ≠ md.id → r.id ≠ r.metadata.id)) := by
  refine ⟨?_, ?_, ?_, ?_⟩
  · intro st st2 d md r h
    rw [SQLiteAdapter.store] at h
    by_cases hd : validateDataOk d
    · simp only [hd, Bool.not_true, Bool.false_eq_true, if_false,
        Prod.mk.injEq] at h
      obtain ⟨-, h2⟩ := h
      cases h2
      rfl
    · simp [hd] at h
  · intro st st2 d md r h
    rw [KuboAdapter.store] at h
    by_cases hd : validateDataOk d
    · simp only [hd, Bool.not_true, Bool.false_eq_true, if_false] at h
      by_cases hc : st.client
      · simp only [kuboAddContent, hc, Bool.not_true, Bool.false_eq_true,
          if_false, Prod.mk.injEq] at h
        obtain ⟨-, h2⟩ := h
        cases h2
        rfl
      · simp [kuboAddContent, hc] at h
    · simp [hd] at h
  · intro st st2 d md r h
    rw [HeliaAdapter.store] at h
    by_cases hd : validateDataOk d
    · by_cases hn : st.node
      · simp only [hd, hn, Bool.not_true, Bool.false_eq_true, if_false,
          Prod.mk.injEq] at h
        obtain ⟨-, h2⟩ := h
        cases h2
        rfl
      · simp [hd, hn] at h
    · simp [hd] at h
  · intro upId st st2 d md r h
    rw [PinataAdapter.store] at h
    by_cases hd : validateDataOk d
    · by_cases hc : st.client
      · simp only [hd, hc, Bool.not_true, Bool.false_eq_true, if_false,
          Prod.mk.injEq] at h
        obtain ⟨-, h2⟩ := h
        cases h2
        exact ⟨rfl, rfl, fun hne => hne⟩
      · simp [hd, hc] at h
    · simp [hd] at h

/-- A metadata envelope with a caller-assigned id, for concrete store
evaluations. -/
def mdC9 : StorageMetadata Unit :=
  { id := "caller-id"
    contentType := "application/octet-stream"
    size := 2
    createdAt := 0
    messageKit := [1, 2]
    conditions := () }

/-- Witness for C9: a concrete Pinata upload whose service id differs from
the metadata id, and a concrete SQLite store whose result id is the
metadata id. -/
theorem result_id_provenance_witness :
    ((PinataAdapter.store ipfsParamsAbs "gw.pinata.cloud" "srv-123"
        ⟨true, []⟩ [1, 2] mdC9).2.map (fun r => r.id) = .ok "srv-123") ∧
    ((SQLiteAdapter.store ":memory:" (⟨[], []⟩ : SqliteState Unit) [1, 2]
        mdC9).2.map (fun r => r.id) = .ok "caller-id") ∧
    "srv-123" ≠ "caller-id" := by
  have h4 := (result_id_provenance ipfsParamsAbs ":memory:"
      "gw.pinata.cloud").2.2.2 "srv-123" ⟨true, []⟩ _ [1, 2] mdC9
      { id := "srv-123"
        reference := "https://gw.pinata.cloud/ipfs/srv-123"
        metadata := mdC9 } rfl
  have h1 := (result_id_provenance ipfsParamsAbs ":memory:"
      "gw.pinata.cloud").1 ⟨[], []⟩ _ [1, 2] mdC9
      { id := "caller-id"
        reference := "sqlite://:memory:#caller-id"
        metadata := mdC9 } rfl
  refine ⟨?_, ?_, by decide⟩
  · rw [show (PinataAdapter.store ipfsParamsAbs "gw.pinata.cloud" "srv-123"
        ⟨true, []⟩ [1, 2] mdC9).2
      = .ok { id := "srv-123"
              reference := "https://gw.pinata.cloud/ipfs/srv-123"
              metadata := mdC9 } from rfl]
    rw [Except.map, h4.1]
  · rw [show (SQLiteAdapter.store ":memory:"
        (⟨[], []⟩ : SqliteState Unit) [1, 2] mdC9).2
      = .ok { id := "caller-id"
              reference := "sqlite://:memory:#caller-id"
              metadata := mdC9 } from rfl]
    rw [Except.map, h1]
    rfl

/-! ## Claim C7 -/

theorem perm_insertByCreatedDesc {Cond : Type} (a : SqliteRow Cond)
    (l : List (SqliteRow Cond)) :
    List.Perm (insertByCreatedDesc a l) (a :: l) := by
  induction l with
  | nil => exact List.Perm.refl _
  | cons b l ih =>
    rw [insertByCreatedDesc]
    by_cases h : a.created_at ≤ b.created_at
    · rw [if_pos h]
      exact (ih.cons b).trans (List.Perm.swap a b l)
    · rw [if_neg h]

theorem perm_sortByCreatedDesc {Cond : Type} (l : List (SqliteRow Cond)) :
    List.Perm (sortByCreatedDesc l) l := by
  induction l with
  | nil => exact List.Perm.refl _
  | cons a l ih =>
    rw [sortByCreatedDesc, List.foldr]
    exact (perm_insertByCreatedDesc a _).trans (ih.cons a)

theorem length_page {α : Type} (l : List α) (k m : Nat) :
    ((l.drop m).take k).length = min k (l.length - m) := by
  simp [List.length_take, List.length_drop]

theorem pages_cover {α : Type} (k : Nat) :
    ∀ (n : Nat) (l : List α), l.length ≤ n * k →
      (List.range n).flatMap (fun i => (l.drop (i * k)).take k) = l := by
  intro n
  induction n with
  | zero =>
    intro l h
    simp only [Nat.zero_mul, Nat.le_zero] at h
    rw [List.length_eq_zero.1 h]
    rfl
  | succ n ih =>
    intro l h
    rw [List.range_succ_eq_map, List.flatMap_cons]
    have hstep : ∀ i : Nat, l.drop ((i + 1) * k) = (l.drop k).drop (i * k) := by
      intro i
      rw [List.drop_drop, Nat.succ_mul, Nat.add_comm]
    have hbind :
        (List.map Nat.succ (List.range n)).flatMap
            (fun i => (l.drop (i * k)).take k)
          = (List.range n).flatMap
              (fun i => ((l.drop k).drop (i * k)).take k) := by
      induction List.range n with
      | nil => rfl
      | cons j t iht =>
        simp only [List.map_cons, List.flatMap_cons, iht]
        rw [show Nat.succ j * k = (j + 1) * k from rfl, hstep j]
    rw [hbind]
    have hlen : (l.drop k).length ≤ n * k := by
      rw [List.length_drop]
      rw [Nat.succ_mul] at h
      omega
    rw [ih (l.drop k) hlen]
    rw [Nat.zero_mul, List.drop_zero]
    exact List.take_append_drop k l

theorem pages_disjoint {α : Type} (l : List α) (hnd : l.Nodup) (k i : Nat) :
    ∀ x, x ∈ (l.drop (i * k)).take k → x ∉ (l.drop ((i + 1) * k)).take k := by
  intro x hx1 hx2
  have h2 : x ∈ (l.drop (i * k)).drop k := by
    have hx3 : x ∈ l.drop ((i + 1) * k) := List.take_subset _ _ hx2
    rw [Nat.succ_mul] at hx3
    rw [List.drop_drop]
    exact hx3
  have hnd2 : (l.drop (i * k)).Nodup :=
    (List.drop_sublist _ _).nodup hnd
  exact List.disjoint_take_drop hnd2 (Nat.le_refl k) hx1 h2

/-- Claim C7: with N stored rows whose keys are distinct (the primary key
of the items table), list(limit = k, offset = m) returns exactly
min k (N - m) ids (Nat subtraction is the max-0 truncation); consecutive
pages of width k share no id; and n pages of width k covering the table
joined together are exactly the ordered key sequence, itself a permutation
of the stored id set. -/
theorem sqlite_list_pagination {Cond : Type} (st : SqliteState Cond)
    (k m n : Nat)
    (hnd : (st.items.map (fun r => r.key)).Nodup)
    (hcov : st.items.length ≤ n * k) :
    (sqliteListIds st k m).length = min k (st.items.length - m) ∧
    (∀ i x, x ∈ sqliteListIds st k (i * k) →
        x ∉ sqliteListIds st k ((i + 1) * k)) ∧
    (List.range n).flatMap (fun i => sqliteListIds st k (i * k))
        = (sortByCreatedDesc st.items).map (fun r => r.key) ∧
    List.Perm ((sortByCreatedDesc st.items).map (fun r => r.key))
        (st.items.map (fun r => r.key)) := by
  have hperm : List.Perm ((sortByCreatedDesc st.items).map (fun r => r.key))
      (st.items.map (fun r => r.key)) :=
    (perm_sortByCreatedDesc st.items).map _
  have hlen : ((sortByCreatedDesc st.items).map (fun r => r.key)).length
      = st.items.length := by
    rw [hperm.length_eq, List.length_map]
  have hnd2 : ((sortByCreatedDesc st.items).map (fun r => r.key)).Nodup :=
    hperm.nodup_iff.2 hnd
  refine ⟨?_, ?_, ?_, hperm⟩
  · rw [sqliteListIds, length_page, hlen]
  · intro i x
    exact pages_disjoint _ hnd2 k i x
  · simp only [sqliteListIds]
    exact pages_cover k n _ (by rw [hlen]; exact hcov)

/-- One row of the concrete three-row table used to evaluate pagination. -/
def rowC7 (k : String) (t : Nat) : SqliteRow Unit :=
  { key := k
    content_type := "t"
    size := 1
    created_at := t
    message_kit := [1]
    conditions := ()
    metadata := none }

/-- A three-row table with distinct keys and distinct timestamps. -/
def stC7 : SqliteState Unit :=
  { items := [rowC7 "a" 3, rowC7 "b" 2, rowC7 "c" 1]
    item_data := [] }

/-- Witness for C7 at the concrete table: page of width 2 at offset 1 has
exactly min 2 (3 - 1) ids. -/
theorem sqlite_list_pagination_witness :
    (sqliteListIds stC7 2 1).length = min 2 (stC7.items.length - 1) :=
  (sqlite_list_pagination stC7 2 1 2 (by decide) (by decide)).1

/-! ## Claim C1 -/

/-- The data package a content-addressed store call persists when the
orchestrator drives it with an explicit condition: the serialized kit as
payload, and the metadata the orchestrator builds. -/
def storedPkg {MK Cond : Type} (E : EncService MK Cond) (p : List Nat)
    (c : Cond) (uid : String) (now : Nat) (mk : MK) : DataPackage Cond :=
  { data := E.toBytes mk
    metadata := TacoStorage.buildMetadata { condition := some c } uid now
      (E.toBytes mk) c p.length }

/-- Reduction of KuboAdapter.store on a non-empty payload with an
initialized client. -/
theorem kubo_store_ok_eq {Cond : Type} (P : IpfsParams Cond)
    (st : KuboState) (d : List Nat) (md : StorageMetadata Cond)
    (hd : d ≠ []) (hc : st.client = true) :
    KuboAdapter.store P st d md
      = ({ client := st.client
           content := (P.hashFn (P.jsonEnc { data := d, metadata := md }),
               P.jsonEnc { data := d, metadata := md }) ::
             st.content.filter
               (fun q => q.1 ≠ P.hashFn (P.jsonEnc { data := d, metadata := md })) },
         .ok { id := md.id
               reference :=
                 "ipfs://" ++ P.hashFn (P.jsonEnc { data := d, metadata := md })
               metadata :=
                 { md with
                   ipfsHash :=
                     some (P.hashFn (P.jsonEnc { data := d, metadata := md })) } }) := by
  simp [KuboAdapter.store, validateDataOk, hd, kuboAddContent, hc]

/-- Reduction of HeliaAdapter.store on a non-empty payload with a running
node. -/
theorem helia_store_ok_eq {Cond : Type} (P : IpfsParams Cond)
    (st : HeliaState) (d : List Nat) (md : StorageMetadata Cond)
    (hd : d ≠ []) (hn : st.node = true) :
    HeliaAdapter.store P st d md
      = ({ node := st.node
           content := (P.hashFn (P.jsonEnc { data := d, metadata := md }),
               P.jsonEnc { data := d, metadata := md }) ::
             st.content.filter
               (fun q => q.1 ≠ P.hashFn (P.jsonEnc { data := d, metadata := md })) },
         .ok { id := md.id
               reference :=
                 "ipfs://" ++ P.hashFn (P.jsonEnc { data := d, metadata := md })
               metadata :=
                 { md with
                   ipfsHash :=
                     some (P.hashFn (P.jsonEnc { data := d, metadata := md })) } }) := by
  simp [HeliaAdapter.store, validateDataOk, hd, hn]

/-- Reduction of KuboAdapter.retrieve on the ipfs:// locator of a block the
node holds, when its JSON decodes. -/
theorem kubo_retrieve_stored_eq {Cond : Type} (P : IpfsParams Cond)
    (st : KuboState) (hash : String) (bytes : List Nat)
    (pkg : DataPackage Cond) (hc : st.client = true)
    (hcid : P.isCid hash = true)
    (hfind : st.content.find? (fun q => q.1 = hash) = some (hash, bytes))
    (hjson : P.jsonDec bytes = some pkg) :
    KuboAdapter.retrieve P st ("ipfs://" ++ hash)
      = .ok (pkg.data, pkg.metadata) := by
  have hid := validateId_ipfs hash
  simp [KuboAdapter.retrieve, hid, validateAndParseReference,
    parseReference_ipfs, hcid, kuboGetContent, hc, hfind, hjson,
    Except.bind, bind]

/-- Reduction of HeliaAdapter.retrieve on the ipfs:// locator of a block the
node holds, when its JSON decodes. -/
theorem helia_retrieve_stored_eq {Cond : Type} (P : IpfsParams Cond)
    (st : HeliaState) (hash : String) (bytes : List Nat)
    (pkg : DataPackage Cond) (hn : st.node = true)
    (hcid : P.isCid hash = true)
    (hfind : st.content.find? (fun q => q.1 = hash) = some (hash, bytes))
    (hjson : P.jsonDec bytes = some pkg) :
    HeliaAdapter.retrieve P st ("ipfs://" ++ hash)
      = .ok (pkg.data, pkg.metadata) := by
  have hid := validateId_ipfs hash
  simp [HeliaAdapter.retrieve, hid, validateAndParseReference,
    parseReference_ipfs, hcid, heliaGetContent, hn, hfind, hjson,
    Except.bind, bind]

/-- Projection of the orchestrator-built metadata id. -/
theorem buildMetadata_id {Cond : Type} (opts : StoreOptions Cond)
    (fid : String) (now : Nat) (ser : List Nat) (c : Cond) (len : Nat) :
    (TacoStorage.buildMetadata opts fid now ser c len).id
      = opts.id.getD fid := rfl

/-- Projection of the orchestrator-built metadata kit bytes. -/
theorem buildMetadata_messageKit {Cond : Type} (opts : StoreOptions Cond)
    (fid : String) (now : Nat) (ser : List Nat) (c : Cond) (len : Nat) :
    (TacoStorage.buildMetadata opts fid now ser c len).messageKit = ser := rfl

/-- Round trip through the keyed SQLite adapter: store with an explicit
condition, then retrieve by the returned id. -/
theorem sqlite_round_trip {MK Cond : Type} (E : EncService MK Cond)
    (dbPath : String) (stS : SqliteState Cond) (p : List Nat) (c : Cond)
    (mk : MK) (uid : String) (now : Nat)
    (hp : p ≠ []) (henc : E.encrypt p c = .ok mk)
    (hdec : E.decrypt mk = .ok p) (hmk : E.fromBytes (E.toBytes mk) = mk)
    (hser : E.toBytes mk ≠ []) (hid : validateIdOk uid = true) :
    ∃ stS2 r,
      TacoStorage.store E (sqliteOps dbPath) stS p { condition := some c }
          now uid = (stS2, .ok r) ∧
      r.id = uid ∧
      (TacoStorage.retrieve E (sqliteOps dbPath) stS2 r.id).map
        (fun rr => rr.data) = .ok p := by
  rw [TacoStorage.store_reduce E (sqliteOps dbPath) stS p _ c mk now uid hp
    rfl henc]
  simp only [sqliteOps]
  rw [sqlite_store_ok_eq dbPath stS _ _ hser]
  refine ⟨_, _, rfl, rfl, ?_⟩
  have hne : uid ≠ "" := ne_empty_of_validateId hid
  rw [TacoStorage.retrieve, if_neg (by exact hne)]
  simp only [sqliteOps, buildMetadata_id, Option.getD]
  rw [SQLiteAdapter.retrieve]
  simp only [hid, Bool.not_true, Bool.false_eq_true, if_false]
  simp only [find?_key_filter_append]
  simp only [rowToMetadata, buildMetadata_messageKit, hmk, hdec, Except.map]

/-- Orchestrator retrieve through the Kubo adapter of a block sitting at the
head of the content map, by its ipfs:// reference. -/
theorem kubo_retrieve_head {MK Cond : Type} (E : EncService MK Cond)
    (P : IpfsParams Cond) (cl : Bool) (rest : List (String × List Nat))
    (bytes : List Nat) (pkg : DataPackage Cond) (p : List Nat)
    (hcl : cl = true) (hcid : P.isCid (P.hashFn bytes) = true)
    (hjson : P.jsonDec bytes = some pkg)
    (hkit : E.decrypt (E.fromBytes pkg.metadata.messageKit) = .ok p) :
    (TacoStorage.retrieve E (kuboOps P)
        ⟨cl, (P.hashFn bytes, bytes) :: rest⟩
        ("ipfs://" ++ P.hashFn bytes)).map (fun rr => rr.data) = .ok p := by
  rw [TacoStorage.retrieve,
    if_neg (ne_empty_of_validateId (validateId_ipfs _))]
  simp only [kuboOps]
  rw [kubo_retrieve_stored_eq P ⟨cl, (P.hashFn bytes, bytes) :: rest⟩
    (P.hashFn bytes) bytes pkg hcl hcid (by simp [List.find?]) hjson]
  simp [hkit, Except.map]

/-- Round trip through the content-addressed Kubo adapter: store with an
explicit condition, then retrieve by the returned ipfs:// reference. -/
theorem kubo_round_trip {MK Cond : Type} (E : EncService MK Cond)
    (P : IpfsParams Cond) (stK : KuboState) (p : List Nat) (c : Cond)
    (mk : MK) (uid : String) (now : Nat)
    (hp : p ≠ []) (henc : E.encrypt p c = .ok mk)
    (hdec : E.decrypt mk = .ok p) (hmk : E.fromBytes (E.toBytes mk) = mk)
    (hser : E.toBytes mk ≠ []) (hclient : stK.client = true)
    (hjson : P.jsonDec (P.jsonEnc (storedPkg E p c uid now mk))
        = some (storedPkg E p c uid now mk))
    (hcid : P.isCid (P.hashFn (P.jsonEnc (storedPkg E p c uid now mk)))
        = true) :
    ∃ stK2 r,
      TacoStorage.store E (kuboOps P) stK p { condition := some c } now uid
        = (stK2, .ok r) ∧
      r.id = uid ∧
      (TacoStorage.retrieve E (kuboOps P) stK2 r.reference).map
        (fun rr => rr.data) = .ok p := by
  simp only [storedPkg] at hjson hcid
  rw [TacoStorage.store_reduce E (kuboOps P) stK p _ c mk now uid hp rfl henc]
  simp only [kuboOps]
  rw [kubo_store_ok_eq P stK _ _ hser hclient]
  refine ⟨_, _, rfl, rfl, ?_⟩
  exact kubo_retrieve_head E P stK.client _ _ _ p hclient hcid hjson
    (by simp only [buildMetadata_messageKit]; rw [hmk, hdec])

/-- Orchestrator retrieve through the Helia adapter of a block sitting at
the head of the content map, by its ipfs:// reference. -/
theorem helia_retrieve_head {MK Cond : Type} (E : EncService MK Cond)
    (P : IpfsParams Cond) (nd : Bool) (rest : List (String × List Nat))
    (bytes : List Nat) (pkg : DataPackage Cond) (p : List Nat)
    (hnd : nd = true) (hcid : P.isCid (P.hashFn bytes) = true)
    (hjson : P.jsonDec bytes = some pkg)
    (hkit : E.decrypt (E.fromBytes pkg.metadata.messageKit) = .ok p) :
    (TacoStorage.retrieve E (heliaOps P)
        ⟨nd, (P.hashFn bytes, bytes) :: rest⟩
        ("ipfs://" ++ P.hashFn bytes)).map (fun rr => rr.data) = .ok p := by
  rw [TacoStorage.retrieve,
    if_neg (ne_empty_of_validateId (validateId_ipfs _))]
  simp only [heliaOps]
  rw [helia_retrieve_stored_eq P ⟨nd, (P.hashFn bytes, bytes) :: rest⟩
    (P.hashFn bytes) bytes pkg hnd hcid (by simp [List.find?]) hjson]
  simp [hkit, Except.map]

/-- Round trip through the embedded Helia adapter: store with an explicit
condition, then retrieve by the returned ipfs:// reference. -/
theorem helia_round_trip {MK Cond : Type} (E : EncService MK Cond)
    (P : IpfsParams Cond) (stH : HeliaState) (p : List Nat) (c : Cond)
    (mk : MK) (uid : String) (now : Nat)
    (hp : p ≠ []) (henc : E.encrypt p c = .ok mk)
    (hdec : E.decrypt mk = .ok p) (hmk : E.fromBytes (E.toBytes mk) = mk)
    (hser : E.toBytes mk ≠ []) (hnode : stH.node = true)
    (hjson : P.jsonDec (P.jsonEnc (storedPkg E p c uid now mk))
        = some (storedPkg E p c uid now mk))
    (hcid : P.isCid (P.hashFn (P.jsonEnc (storedPkg E p c uid now mk)))
        = true) :
    ∃ stH2 r,
      TacoStorage.store E (heliaOps P) stH p { condition := some c } now uid
        = (stH2, .ok r) ∧
      r.id = uid ∧
      (TacoStorage.retrieve E (heliaOps P) stH2 r.reference).map
        (fun rr => rr.data) = .ok p := by
  simp only [storedPkg] at hjson hcid
  rw [TacoStorage.store_reduce E (heliaOps P) stH p _ c mk now uid hp rfl
    henc]
  simp only [heliaOps]
  rw [helia_store_ok_eq P stH _ _ hser hnode]
  refine ⟨_, _, rfl, rfl, ?_⟩
  exact helia_retrieve_head E P stH.node _ _ _ p hnode hcid hjson
    (by simp only [buildMetadata_messageKit]; rw [hmk, hdec])

/-- Claim C1 (amended): with the external encryption service a pair of
mutually inverse black-box functions and the kit serialization its inverse
pair, a non-empty plaintext stored under an explicit condition round-trips
to the same bytes: the keyed SQLite adapter decrypts it back when retrieved
by the id returned from store, while the content-addressed Kubo and Helia
adapters decrypt it back when retrieved by the reference returned from
store (retrieval by the returned id is not what those adapters accept; see
the counterexample). -/
theorem round_trip {MK Cond : Type} (E : EncService MK Cond)
    (P : IpfsParams Cond) (dbPath : String) (stS : SqliteState Cond)
    (stK : KuboState) (stH : HeliaState) (p : List Nat) (c : Cond) (mk : MK)
    (uid : String) (now : Nat)
    (hp : p ≠ []) (henc : E.encrypt p c = .ok mk)
    (hdec : E.decrypt mk = .ok p) (hmk : E.fromBytes (E.toBytes mk) = mk)
    (hser : E.toBytes mk ≠ []) (hid : validateIdOk uid = true)
    (hclient : stK.client = true) (hnode : stH.node = true)
    (hjson : P.jsonDec (P.jsonEnc (storedPkg E p c uid now mk))
        = some (storedPkg E p c uid now mk))
    (hcid : P.isCid (P.hashFn (P.jsonEnc (storedPkg E p c uid now mk)))
        = true) :
    (∃ stS2 r,
      TacoStorage.store E (sqliteOps dbPath) stS p { condition := some c }
          now uid = (stS2, .ok r) ∧
      r.id = uid ∧
      (TacoStorage.retrieve E (sqliteOps dbPath) stS2 r.id).map
        (fun rr => rr.data) = .ok p) ∧
    (∃ stK2 r,
      TacoStorage.store E (kuboOps P) stK p { condition := some c } now uid
        = (stK2, .ok r) ∧
      r.id = uid ∧
      (TacoStorage.retrieve E (kuboOps P) stK2 r.reference).map
        (fun rr => rr.data) = .ok p) ∧
    (∃ stH2 r,
      TacoStorage.store E (heliaOps P) stH p { condition := some c } now uid
        = (stH2, .ok r) ∧
      r.id = uid ∧
      (TacoStorage.retrieve E (heliaOps P) stH2 r.reference).map
        (fun rr => rr.data) = .ok p) :=
  ⟨sqlite_round_trip E dbPath stS p c mk uid now hp henc hdec hmk hser hid,
   kubo_round_trip E P stK p c mk uid now hp henc hdec hmk hser hclient
     hjson hcid,
   helia_round_trip E P stH p c mk uid now hp henc hdec hmk hser hnode
     hjson hcid⟩

/-- Concrete IPFS externals for the round-trip evaluation: the constant
hash is CID-shaped, and the JSON decoder inverts the encoder on the one
package these evaluations store. -/
def ipfsParamsRT : IpfsParams Unit :=
  { hashFn := fun _ => "bafyrt"
    isCid := fun s => jsStartsWith s "bafy"
    jsonEnc := fun q => q.data
    jsonDec := fun d => some
      { data := d
        metadata :=
          { id := "u1"
            contentType := "application/octet-stream"
            size := 3
            createdAt := 0
            custom := none
            messageKit := [1, 2, 3]
            conditions := ()
            ipfsHash := none } } }

/-- Witness for C1 at concrete inputs: the identity encryption service, the
plaintext bytes 1 2 3, and empty initialized backends. -/
theorem round_trip_witness :
    (∃ (stS2 : SqliteState Unit) (r : StorageResult Unit),
      TacoStorage.store encId (sqliteOps ":memory:")
          (⟨[], []⟩ : SqliteState Unit) [1, 2, 3] { condition := some () }
          0 "u1" = (stS2, .ok r) ∧
      r.id = "u1" ∧
      (TacoStorage.retrieve encId (sqliteOps ":memory:") stS2 r.id).map
        (fun rr => rr.data) = .ok [1, 2, 3]) ∧
    (∃ (stK2 : KuboState) (r : StorageResult Unit),
      TacoStorage.store encId (kuboOps ipfsParamsRT) ⟨true, []⟩ [1, 2, 3]
          { condition := some () } 0 "u1" = (stK2, .ok r) ∧
      r.id = "u1" ∧
      (TacoStorage.retrieve encId (kuboOps ipfsParamsRT) stK2
          r.reference).map (fun rr => rr.data) = .ok [1, 2, 3]) ∧
    (∃ (stH2 : HeliaState) (r : StorageResult Unit),
      TacoStorage.store encId (heliaOps ipfsParamsRT) ⟨true, []⟩ [1, 2, 3]
          { condition := some () } 0 "u1" = (stH2, .ok r) ∧
      r.id = "u1" ∧
      (TacoStorage.retrieve encId (heliaOps ipfsParamsRT) stH2
          r.reference).map (fun rr => rr.data) = .ok [1, 2, 3]) :=
  round_trip encId ipfsParamsRT ":memory:" ⟨[], []⟩ ⟨true, []⟩ ⟨true, []⟩
    [1, 2, 3] () [1, 2, 3] "u1" 0 (by decide) rfl rfl rfl (by decide)
    (by decide) rfl rfl rfl rfl

/-- Counterexample for C1 as frozen: on the Kubo adapter, retrieving by the
id returned from store (the fresh uuid) fails, because that id is not an
IPFS locator; only the returned reference works (see the amended
theorem). -/
theorem kubo_retrieve_by_returned_id_fails :
    ((TacoStorage.store encId (kuboOps ipfsParamsAbs) ⟨true, []⟩ [1, 2, 3]
        { condition := some () } 0 "11111111-2222-3333").2.map
          (fun r => r.id) = .ok "11111111-2222-3333") ∧
    (TacoStorage.retrieve encId (kuboOps ipfsParamsAbs)
        (TacoStorage.store encId (kuboOps ipfsParamsAbs) ⟨true, []⟩
          [1, 2, 3] { condition := some () } 0 "11111111-2222-3333").1
        "11111111-2222-3333")
      = .error (.taco .retrievalError
          ("Failed to retrieve data from IPFS: " ++
            "Invalid IPFS reference format: 11111111-2222-3333")
          (some (.taco .invalidReference
            "Invalid IPFS reference format: 11111111-2222-3333" none))) := by
  exact ⟨rfl, by decide⟩
